import Mathlib

/-!
Verification of the session state machine, risk-escalation merge, onboarding
protocol, journaling classifier, idempotency guard, outbound splitter and
proactive scheduler of the `here_v2` companion service.

JavaScript strings are embedded as `String`/`List Char`; the handful of
JavaScript string primitives the code uses (`toLowerCase`, `trim`,
`includes`, `startsWith`, `lastIndexOf` with a position, `substring`) are
modelled below over `List Char`.  Machine time (`Date.now()`) is modelled as
a natural number of milliseconds with local-day boundaries at multiples of
`dayMs`.  Calls into external capabilities (the LLM, the delivery gateway)
and `Math.random` choices are passed in as explicit oracle arguments.
-/

namespace HereV2

/-- JS whitespace (the characters occurring in this codebase's strings). -/
def isJsWhitespace (c : Char) : Bool :=
  c = ' ' || c = '\n' || c = '\t' || c = '\r'

/-- ASCII lower-casing of one character, as `String.prototype.toLowerCase`
acts on the ASCII strings of this codebase. -/
def asciiToLower (c : Char) : Char :=
  if 65 ≤ c.toNat ∧ c.toNat ≤ 90 then Char.ofNat (c.toNat + 32) else c

/-- ASCII upper-casing of one character (`String.prototype.toUpperCase`). -/
def asciiToUpper (c : Char) : Char :=
  if 97 ≤ c.toNat ∧ c.toNat ≤ 122 then Char.ofNat (c.toNat - 32) else c

/-- `s.toLowerCase()`. -/
def toLowerCase (s : List Char) : List Char := s.map asciiToLower

/-- Leading-whitespace removal, the first half of `s.trim()`. -/
def trimLeft (s : List Char) : List Char := s.dropWhile isJsWhitespace

/-- Trailing-whitespace removal, the second half of `s.trim()`. -/
def trimRight (s : List Char) : List Char :=
  (s.reverse.dropWhile isJsWhitespace).reverse

/-- `s.trim()`. -/
def jsTrim (s : List Char) : List Char := trimRight (trimLeft s)

/-- `s.includes(pat)`. -/
def jsIncludes (s pat : List Char) : Bool :=
  match s with
  | [] => pat.isEmpty
  | _ :: rest => pat.isPrefixOf s || jsIncludes rest pat

/-- `s.startsWith(pat)`. -/
def jsStartsWith (s pat : List Char) : Bool := pat.isPrefixOf s

/-- Helper for `s.lastIndexOf(pat, pos)`: the largest index `i ≤ bound` at
which `pat` begins in `s`, scanning downward. -/
def lastIndexOfFromAux (s pat : List Char) : Nat → Option Nat
  | 0 => if pat.isPrefixOf s then some 0 else none
  | i + 1 =>
    if pat.isPrefixOf (s.drop (i + 1)) then some (i + 1)
    else lastIndexOfFromAux s pat i

/-- `s.lastIndexOf(pat, pos)` (`none` for JavaScript's `-1`). -/
def lastIndexOfFrom (s pat : List Char) (pos : Nat) : Option Nat :=
  lastIndexOfFromAux s pat pos

/-! ## Configuration (`src/config/index.js`) -/

/-- `config.crisisKeywords`. -/
def crisisKeywords : List String :=
  ["suicide", "kill myself", "end it all", "want to die", "hurt myself",
   "self harm", "self-harm", "can't go on", "end my life",
   "no reason to live", "better off dead", "kill me"]

/-- `config.journaling.prefixes`. -/
def journalingPrefixList : List String := ["journal:", "j:"]

/-- `config.onboardingStages`: INITIAL = 0, ASK_NAME = 1, ASK_REASON = 2,
ASK_CHECKIN = 3, COMPLETE = 4. -/
def onboardingStagesCOMPLETE : Nat := 4

/-! ## Crisis layer (`src/prompts/crisisPrompt.js`, `src/services/crisisDetection.js`) -/

/-- `containsCrisisKeyword(message)`: case-insensitive membership scan of the
fixed phrase list. -/
def containsCrisisKeyword (message : String) : Bool :=
  crisisKeywords.any fun kw =>
    jsIncludes (toLowerCase message.data) (toLowerCase kw.data)

/-- `getCrisisResponse(riskLevel)` with the default US resources inlined;
`none` is the `null` returned for `low`. -/
def getCrisisResponse (riskLevel : String) : Option String :=
  if riskLevel = "critical" then
    some ("I hear you, and I'm really glad you're talking to me right now. What you're feeling matters, and so do you.\n\nI want to make sure you have support beyond just me. Please reach out to someone who can help:\n\n📞 988 Suicide & Crisis Lifeline\n💬 Text HOME to 741741 (Crisis Text Line)\n\nThese are real people who care and can help right now. Are you safe at this moment?")
  else if riskLevel = "high" then
    some ("Thank you for trusting me with this. I'm here for you, and I want you to know that what you're going through is real and valid.\n\nI also want to share some resources in case you need them:\n📞 988 Suicide & Crisis Lifeline\n💬 Text HOME to 741741 (Crisis Text Line)\n\nYou don't have to go through this alone. How are you feeling right now?")
  else if riskLevel = "medium" then
    some ("I hear that you're going through a really tough time. That takes a lot to share, and I'm glad you did.\n\nIf things ever feel too overwhelming, remember you can also reach out to Text HOME to 741741 (Crisis Text Line) - they're there 24/7.\n\nI'm here too. Tell me more about what's going on.")
  else none

/-- The `riskOrder` lookup of `detectCrisis`: `riskOrder[level] || 0`
(an unknown level string falls back to 0, as does `low`). -/
def riskOrderLookup (level : String) : Nat :=
  if level = "low" then 0
  else if level = "medium" then 1
  else if level = "high" then 2
  else if level = "critical" then 3
  else 0

/-- A usable LLM assessment: parsed JSON with a truthy `level`
(`follow_up_hours` is `null` or a number of hours). -/
structure Assessment where
  level : String
  followUpHours : Option Nat
deriving Repr, DecidableEq

/-- The record `detectCrisis` builds and returns. -/
structure CrisisResult where
  isCrisis : Bool
  riskLevel : String
  keywordMatch : Bool
  crisisResponse : Option String
  shouldFollowUp : Bool
  followUpHours : Option Nat
deriving Repr, DecidableEq

/-- `CrisisDetectionService.detectCrisis(phoneNumber, message, history)`.
The outcome of the external layer is the argument `llm`: `none` when
`assessWithLLM` returned `null` (no client, request error, JSON parse
failure, missing `level`) or threw; `some a` when it returned a usable
assessment. -/
def detectCrisis (message : String) (llm : Option Assessment) : CrisisResult :=
  let r0 : CrisisResult :=
    { isCrisis := false, riskLevel := "low", keywordMatch := false,
      crisisResponse := none, shouldFollowUp := false, followUpHours := none }
  -- Layer 1: keyword detection
  let r1 :=
    if containsCrisisKeyword message then
      { r0 with keywordMatch := true, isCrisis := true, riskLevel := "high" }
    else r0
  -- Layer 2: LLM risk assessment (only ever raises the level)
  let r2 :=
    match llm with
    | some a =>
      let currentRisk := riskOrderLookup r1.riskLevel
      let llmRisk := riskOrderLookup a.level
      let rl := if currentRisk < llmRisk then a.level else r1.riskLevel
      { r1 with riskLevel := rl,
                isCrisis := decide (rl ≠ "low"),
                shouldFollowUp := a.followUpHours.isSome,
                followUpHours := a.followUpHours }
    | none => r1
  if r2.isCrisis then
    { r2 with crisisResponse := getCrisisResponse r2.riskLevel }
  else r2

/-- The deterministic keyword-layer floor of the spec: `high` on a phrase
match, `low` otherwise. -/
def deterministicFloor (message : String) : String :=
  if containsCrisisKeyword message then "high" else "low"

/-- The spec's merge: the maximum of two levels under the ordering
low < medium < high < critical (stated through `riskOrderLookup`). -/
def maxLevel (x y : String) : String :=
  if riskOrderLookup x < riskOrderLookup y then y else x

/-- A level string of the ordered scale. -/
def validLevel (s : String) : Prop :=
  s = "low" ∨ s = "medium" ∨ s = "high" ∨ s = "critical"

/-! ## Onboarding (`src/services/onboarding.js`) -/

/-- The per-identity profile fields the onboarding and orchestration code
reads.  `name = ""` models a `null` or empty (falsy) display name. -/
structure UserState where
  onboardingStage : Nat
  name : String
  messageCount : Nat
deriving Repr, DecidableEq

/-- `createUser`: stage `INITIAL`, no name, zero messages. -/
def freshUser : UserState :=
  { onboardingStage := 0, name := "", messageCount := 0 }

/-- The stoplist of `isCommonWord`. -/
def commonWords : List String :=
  ["yes", "no", "hi", "hey", "hello", "thanks", "thank", "ok", "okay",
   "sure", "yeah", "yep", "nope", "the", "and", "but", "what", "why"]

/-- `isCommonWord(word)`. -/
def isCommonWord (word : List Char) : Bool :=
  commonWords.any fun w => toLowerCase word == w.data

/-- `capitalizeName(name)`: first character upper-cased, rest lower-cased. -/
def capitalizeName (name : List Char) : List Char :=
  match name with
  | [] => []
  | c :: rest => asciiToUpper c :: toLowerCase rest

/-- JS `\w`: ASCII letters, digits and underscore. -/
def isWordChar (c : Char) : Bool :=
  ('a' ≤ c && c ≤ 'z') || ('A' ≤ c && c ≤ 'Z') || ('0' ≤ c && c ≤ '9') || c = '_'

/-- The self-introduction alternatives of the first `extractName` regex
`/^(?:i'?m|my name is|call me|it'?s)\s+(\w+)/i`, in backtracking order. -/
def introAlternatives : List String :=
  ["i'm", "im", "my name is", "call me", "it's", "its"]

/-- One alternative of the first regex: the alternative, `\s+`, then the
captured `\w+` (maximal munch).  `none` when this alternative fails. -/
def tryIntroAlt (s : List Char) (intro : List Char) : Option (List Char) :=
  if intro.isPrefixOf (toLowerCase s) then
    let rest := s.drop intro.length
    let afterWs := rest.dropWhile isJsWhitespace
    if afterWs.length < rest.length then
      let captured := afterWs.takeWhile isWordChar
      if captured.isEmpty then none else some captured
    else none
  else none

/-- The first `extractName` regex applied to the trimmed message. -/
def matchIntroPattern (s : List Char) : Option (List Char) :=
  introAlternatives.findSome? fun w => tryIntroAlt s w.data

/-- The second `extractName` regex `/^(\w+)(?:\s*!|\s*\.|\s*$)/i`: a leading
`\w+` (maximal munch, backtracking cannot succeed with fewer characters)
followed, after optional whitespace, by `!`, `.` or the end. -/
def matchLeadingWordPattern (s : List Char) : Option (List Char) :=
  let w := s.takeWhile isWordChar
  if w.isEmpty then none
  else
    match (s.drop w.length).dropWhile isJsWhitespace with
    | [] => some w
    | '!' :: _ => some w
    | '.' :: _ => some w
    | _ => none

/-- `trimmed.split(/\s+/)` on an already-trimmed string: the maximal
whitespace-free words, in order. -/
def splitOnWsAux : List Char → List Char → List (List Char)
  | [], acc => if acc.isEmpty then [] else [acc.reverse]
  | c :: rest, acc =>
    if isJsWhitespace c then
      if acc.isEmpty then splitOnWsAux rest []
      else acc.reverse :: splitOnWsAux rest []
    else splitOnWsAux rest (c :: acc)

/-- See `splitOnWsAux`. -/
def splitOnWs (s : List Char) : List (List Char) := splitOnWsAux s []

/-- `extractName(message)`: the two regex patterns in order (a matched but
invalid candidate falls through to the next pattern), then the short-reply
fallback.  `none` is the `null` return. -/
def extractName (message : String) : Option String :=
  if message = "" then none
  else
    let trimmed := jsTrim message.data
    let validate : List Char → Option String := fun nm =>
      if 2 ≤ nm.length ∧ ¬ isCommonWord nm then some (String.mk (capitalizeName nm))
      else none
    let fallback : Option String :=
      let words := splitOnWs trimmed
      if words.length ≤ 2 ∧ 2 ≤ (words.headD []).length then
        let potential := (words.headD []).filter isWordChar
        if ¬ isCommonWord potential then some (String.mk (capitalizeName potential))
        else none
      else none
    match matchIntroPattern trimmed with
    | some nm =>
      match validate nm with
      | some out => some out
      | none =>
        match matchLeadingWordPattern trimmed with
        | some nm2 => (validate nm2).orElse fun _ => fallback
        | none => fallback
    | none =>
      match matchLeadingWordPattern trimmed with
      | some nm2 => (validate nm2).orElse fun _ => fallback
      | none => fallback

/-- `isCheckInResponse(message)`. -/
def isCheckInResponse (message : String) : Bool :=
  if message = "" then false
  else
    let lower := toLowerCase message.data
    jsIncludes lower "yes".data || jsIncludes lower "no".data ||
    jsIncludes lower "sure".data || jsIncludes lower "okay".data ||
    jsIncludes lower "don't".data || jsIncludes lower "please".data

/-- `parseCheckInPreference`'s positive phrase list. -/
def positiveWords : List String :=
  ["yes", "sure", "okay", "ok", "yeah", "yep", "please", "would love", "sounds good"]

/-- `parseCheckInPreference`'s negative phrase list. -/
def negativeWords : List String :=
  ["no", "nope", "don't", "not really", "pass"]

/-- `parseCheckInPreference(message)`: positive phrases first, then negative
ones, defaulting to `true`; a falsy (empty) message returns `false`. -/
def parseCheckInPreference (message : String) : Bool :=
  if message = "" then false
  else
    let lower := toLowerCase message.data
    if positiveWords.any (fun w => jsIncludes lower w.data) then true
    else if negativeWords.any (fun w => jsIncludes lower w.data) then false
    else true

/-- `getOnboardingPrompt(stage)`. -/
def getOnboardingPrompt (stage : Nat) : Option String :=
  if stage = 1 then
    some "By the way, I'd love to know what to call you. What's your name?"
  else if stage = 2 then
    some "I want to be helpful in the right ways. What brings you here? (No pressure - you can say 'just to talk' if you prefer)"
  else if stage = 3 then
    some "Would you like me to check in on you sometimes? I can send a morning message or evening reflection prompt. Totally optional!"
  else none

/-- What one `processOnboarding` call returns and writes: its response, the
successive `advanceStage` target stages (in call order), the stored name and
whether `setupCheckIns` ran.  `nameAck` abstracts the randomly chosen
`getNameAcknowledgment` text. -/
structure OnboardingOutcome where
  response : Option String
  stageAdvanced : Bool
  stageWrites : List Nat
  nameWrite : Option String
  checkInsScheduled : Bool
deriving Repr, DecidableEq

/-- The no-transition outcome. -/
def noOnboardingOutcome : OnboardingOutcome :=
  { response := none, stageAdvanced := false, stageWrites := [],
    nameWrite := none, checkInsScheduled := false }

/-- The stage `switch` of `processOnboarding`. -/
def onboardingSwitch (user : UserState) (message : String) (nameAck : String) :
    OnboardingOutcome :=
  let stage := user.onboardingStage
  if stage = 0 then
    -- INITIAL: after 2 messages without a name, ask for one
    if 2 ≤ user.messageCount ∧ user.name = "" then
      { noOnboardingOutcome with
        response := getOnboardingPrompt 1, stageAdvanced := true, stageWrites := [1] }
    else noOnboardingOutcome
  else if stage = 1 then
    -- ASK_NAME: advance on a truthy extracted name
    let en := (extractName message).getD ""
    if en ≠ "" then
      { noOnboardingOutcome with
        response := some nameAck, stageAdvanced := true, stageWrites := [2],
        nameWrite := some en }
    else noOnboardingOutcome
  else if stage = 2 then
    -- ASK_REASON: after 5 messages
    if 5 ≤ user.messageCount then
      { noOnboardingOutcome with
        response := getOnboardingPrompt 2, stageAdvanced := true, stageWrites := [3] }
    else noOnboardingOutcome
  else if stage = 3 then
    -- ASK_CHECKIN: after 10 messages
    if 10 ≤ user.messageCount then
      { noOnboardingOutcome with
        response := getOnboardingPrompt 3, stageAdvanced := true, stageWrites := [4] }
    else noOnboardingOutcome
  else noOnboardingOutcome

/-- `OnboardingService.processOnboarding(phoneNumber, message, user)`:
the stage `switch`, then the separate check-in-preference block (which runs
whenever the entry stage was `ASK_CHECKIN` and the message reads as a
check-in response — in addition to whatever the `switch` did). -/
def processOnboarding (user : UserState) (message : String) (nameAck : String) :
    OnboardingOutcome :=
  let stage := user.onboardingStage
  let o1 := onboardingSwitch user message nameAck
  if stage = 3 ∧ isCheckInResponse message then
    let wants := parseCheckInPreference message
    { response := some (if wants then
        "Great! I'll send you a gentle check-in from time to time. You can always tell me to stop if it gets annoying 😊"
        else "No problem! I'll be here whenever you need me."),
      stageAdvanced := true,
      stageWrites := o1.stageWrites ++ [4],
      nameWrite := o1.nameWrite,
      checkInsScheduled := wants }
  else o1

/-- The stage stored after one `processOnboarding` call: the last
`advanceStage` write, or the entry stage when none happened.  (The stage
writes do not depend on the random name acknowledgment.) -/
def stageAfterOnboarding (user : UserState) (message : String) : Nat :=
  ((processOnboarding user message "").stageWrites).foldl (fun _ w => w)
    user.onboardingStage

/-- One inbound event for a fixed identity: the stage moves to
`stageAfterOnboarding`; every other profile field may change arbitrarily
(stats updates, name writes by other code paths). -/
def OnboardingStep (u v : UserState) : Prop :=
  ∃ message : String, v.onboardingStage = stageAfterOnboarding u message

/-! ## Journaling (`src/prompts/journalPrompts.js`, `src/services/journaling.js`) -/

/-- `isJournalEntry(message)`: fixed-prefix match, case-insensitive, on the
trimmed message. -/
def isJournalEntry (message : String) : Bool :=
  if message = "" then false
  else journalingPrefixList.any fun p =>
    jsStartsWith (jsTrim (toLowerCase message.data)) p.data

/-- `extractJournalContent(message)`: trim, strip the first matching prefix
(`journal:` before `j:`), trim again. -/
def extractJournalContent (message : String) : String :=
  if message = "" then message
  else
    let content := jsTrim message.data
    let content :=
      if jsStartsWith (toLowerCase content) "journal:".data then
        jsTrim (content.drop 8)
      else if jsStartsWith (toLowerCase content) "j:".data then
        jsTrim (content.drop 2)
      else content
    String.mk content

/-! ## Commands and the message pipeline (`src/handlers/messageHandler.js`) -/

/-- Which built-in command branch of `handleCommands` fired. -/
inductive CommandTag
  | forgetMe
  | stopCheckIns
  | resumeCheckIns
  | helpCmd
  | crisisResources
deriving Repr, DecidableEq

/-- A handled command: its branch and its canned response. -/
structure CommandResult where
  tag : CommandTag
  response : String
deriving Repr, DecidableEq

/-- `handleCommands` on the already-normalized (lower-cased, trimmed)
message text. -/
def handleCommandsN (n : List Char) : Option CommandResult :=
  cond (n == "forget me".data || n == "delete my data".data)
    (some { tag := .forgetMe,
            response := "I've deleted all your data. If you ever want to chat again, just send a message and we'll start fresh. Take care 💙" })
    (cond (n == "stop".data || n == "stop check-ins".data || n == "unsubscribe".data)
      (some { tag := .stopCheckIns,
              response := "Got it, I've stopped the check-ins. I'm still here whenever you want to talk though!" })
      (cond (n == "resume".data || n == "start check-ins".data)
        (some { tag := .resumeCheckIns,
                response := "Welcome back! I'll start sending check-ins again. Talk soon 💫" })
        (cond (n == "help".data || n == "?".data)
          (some { tag := .helpCmd,
                  response := "Here's what you can do:\n        \n📝 Journal: Start a message with \"j:\" to save a journal entry\n⏸ Stop check-ins: Say \"stop\" to pause proactive messages\n▶️ Resume: Say \"resume\" to restart check-ins\n🗑 Delete data: Say \"forget me\" to delete all your data\n💬 Or just chat - I'm here to listen!" })
          (cond (n == "crisis".data || n == "help me".data || n == "resources".data)
            (some { tag := .crisisResources,
                    response := "If you're in crisis, please reach out to these resources:\n📞 988 Suicide & Crisis Lifeline\n💬 Text HOME to 741741 (Crisis Text Line)\n🚨 Emergency: 911\n\nYou matter, and help is available." })
            none))))

/-- `MessageHandler.handleCommands(phoneNumber, message, user)`. -/
def handleCommands (message : String) : Option CommandResult :=
  handleCommandsN (jsTrim (toLowerCase message.data))

/-- `getWelcomeMessage()`. -/
def getWelcomeMessage : String :=
  "Hey there! 👋 I'm here to be a supportive friend whenever you need someone to talk to.\n\nI'm not a therapist, but I'm a good listener and I'll remember our conversations.\n\nWhat's on your mind today?"

/-- The external and random inputs one `handleMessage` run consumes. -/
structure Oracles where
  llm : Option Assessment
  genReply : String
  journalAck : String
  nameAck : String
  refreshedUser : UserState
deriving Repr, DecidableEq

/-- The state-store side effects a `handleMessage` run performs, in order
(besides history/stats bookkeeping). -/
inductive Effect
  | journalSave (content : String)
  | journalCountIncrement
  | crisisLog (level : String)
  | followUpScheduled (hours : Nat)
  | stageWrite (stage : Nat)
  | nameWrite (name : String)
  | checkInsScheduled
  | dataDeleted
  | scheduleCleared
deriving Repr, DecidableEq

/-- What one `handleMessage` run did: the texts handed to `sendResponse`
(in order), the store effects, and which pipeline stages ran. -/
structure HandleOutcome where
  sent : List String
  effects : List Effect
  crisisDetectionRan : Bool
  onboardingRan : Bool
  llmReplyRequested : Bool
deriving Repr, DecidableEq

/-- The store effects `detectCrisis` performs (crisis log entry; follow-up
when recommended with a truthy hour count). -/
def crisisEffects (r : CrisisResult) : List Effect :=
  if r.isCrisis then
    Effect.crisisLog r.riskLevel ::
      (if r.shouldFollowUp ∧ r.followUpHours.getD 0 ≠ 0 then
        [Effect.followUpScheduled (r.followUpHours.getD 0)]
      else [])
  else []

/-- The store effects of each command branch. -/
def commandEffects : CommandTag → List Effect
  | .forgetMe => [.dataDeleted]
  | .stopCheckIns => [.scheduleCleared]
  | .resumeCheckIns => [.checkInsScheduled]
  | .helpCmd => []
  | .crisisResources => []

/-- The store effects of one onboarding step. -/
def onboardingEffects (ob : OnboardingOutcome) : List Effect :=
  (match ob.nameWrite with
   | some nm => [Effect.nameWrite nm]
   | none => []) ++
  ob.stageWrites.map Effect.stageWrite ++
  (if ob.checkInsScheduled then [Effect.checkInsScheduled] else [])

/-- `MessageHandler.handleMessage(webhookData)` for a text event:
commands, then journal classification, then the new-user welcome, then
crisis detection with the `critical` short-circuit, then reply generation
with the crisis-resource prefix, then one onboarding step whose prompt is
appended.  `user0 = none` when no profile exists yet (`getOrCreateUser`
creates `freshUser`). -/
def handleMessage (user0 : Option UserState) (message : String) (o : Oracles) :
    HandleOutcome :=
  if message = "" then
    { sent := [], effects := [], crisisDetectionRan := false,
      onboardingRan := false, llmReplyRequested := false }
  else
    let user := user0.getD freshUser
    let isNewUser := user.messageCount = 0
    match handleCommands message with
    | some cr =>
      { sent := [cr.response], effects := commandEffects cr.tag,
        crisisDetectionRan := false, onboardingRan := false,
        llmReplyRequested := false }
    | none =>
      if isJournalEntry message then
        { sent := [o.journalAck],
          effects := [Effect.journalSave (extractJournalContent message),
                      Effect.journalCountIncrement],
          crisisDetectionRan := false, onboardingRan := false,
          llmReplyRequested := false }
      else if isNewUser then
        { sent := [getWelcomeMessage, o.genReply], effects := [],
          crisisDetectionRan := false, onboardingRan := false,
          llmReplyRequested := true }
      else
        let r := detectCrisis message o.llm
        if r.isCrisis ∧ r.riskLevel = "critical" then
          { sent := [r.crisisResponse.getD ""], effects := crisisEffects r,
            crisisDetectionRan := true, onboardingRan := false,
            llmReplyRequested := false }
        else
          let reply1 :=
            if r.isCrisis ∧ r.crisisResponse.isSome then
              r.crisisResponse.getD "" ++ "\n\n" ++ o.genReply
            else o.genReply
          let ob := processOnboarding o.refreshedUser message o.nameAck
          let reply2 :=
            match ob.response with
            | some p => reply1 ++ "\n\n" ++ p
            | none => reply1
          { sent := [reply2], effects := crisisEffects r ++ onboardingEffects ob,
            crisisDetectionRan := true, onboardingRan := true,
            llmReplyRequested := true }

/-! ## Proactive scheduler (`src/services/proactiveMessaging.js`) -/

/-- One day of milliseconds. -/
def dayMs : Nat := 86400000

/-- One hour of milliseconds. -/
def hourMs : Nat := 3600000

/-- `getNextCheckInTime()`: 09:00 on the day after the instant `t` (time in
epoch milliseconds, day boundaries at multiples of `dayMs`). -/
def getNextCheckInTime (t : Nat) : Nat :=
  (t / dayMs + 1) * dayMs + 9 * hourMs

/-- `getNextJournalPromptTime()`: 20:00 on the day after `t`. -/
def getNextJournalPromptTime (t : Nat) : Nat :=
  (t / dayMs + 1) * dayMs + 20 * hourMs

/-- A scheduled one-shot follow-up `{type, time, context}`. -/
structure FollowUp where
  ftype : String
  time : Nat
  context : String
deriving Repr, DecidableEq

/-- The per-identity `ScheduleRecord`. -/
structure ScheduleRecord where
  nextCheckIn : Option Nat
  nextJournalPrompt : Option Nat
  followUps : List FollowUp
deriving Repr, DecidableEq

/-- `ProactiveMessaging.processUserSchedule(phoneNumber, now)`.  `now` is the
scan timestamp passed in; `tNow` is the fresh clock read the rollover
helpers (`new Date()` inside `getNextCheckInTime`) perform, so `now ≤ tNow`.
The `c ≠ 0` guards model the JavaScript truthiness test
`schedule.nextCheckIn && …`.  Due follow-ups are dispatched and removed. -/
def processUserSchedule (sched : ScheduleRecord) (now tNow : Nat) : ScheduleRecord :=
  let s1 :=
    match sched.nextCheckIn with
    | some c =>
      if c ≠ 0 ∧ c ≤ now then
        { sched with nextCheckIn := some (getNextCheckInTime tNow) }
      else sched
    | none => sched
  let s2 :=
    match s1.nextJournalPrompt with
    | some j =>
      if j ≠ 0 ∧ j ≤ now then
        { s1 with nextJournalPrompt := some (getNextJournalPromptTime tNow) }
      else s1
    | none => s1
  { s2 with followUps := s2.followUps.filter fun f => decide (now < f.time) }

/-! ## Idempotency guard (`src/routes/webhook.js`, `src/services/redis.js`)

The marker store is the set of claimed event ids (TTL expiry is outside the
claim's window and not modelled).  Each store primitive is atomic; the
route's guard is the two-step sequence below. -/

/-- `RedisService.checkIdempotency(messageId)`: a plain `GET`, an existence
check only. -/
def checkIdempotency (store : List String) (messageId : String) : Bool :=
  store.contains messageId

/-- `RedisService.setIdempotency(messageId, ttl)`: a separate unconditional
`SET` (no `NX` option). -/
def setIdempotency (store : List String) (messageId : String) : List String :=
  messageId :: store

/-- The webhook route's guard run to completion in isolation:
`checkIdempotency`, then — only when absent — `setIdempotency`.  Returns
(isDuplicate, updated store). -/
def claimEvent (store : List String) (messageId : String) : Bool × List String :=
  if checkIdempotency store messageId then (true, store)
  else (false, setIdempotency store messageId)

/-- One replica running the route's guard: `pc = 0` before the `GET`,
`pc = 1` between the `GET` and the `SET`, `pc = 2` done; `dup` is the
`GET`'s result. -/
structure ReplicaState where
  pc : Nat
  dup : Bool
deriving Repr, DecidableEq

/-- One atomic store operation of the guard on one replica. -/
def stepReplica (store : List String) (messageId : String) (r : ReplicaState) :
    List String × ReplicaState :=
  match r.pc with
  | 0 => (store, { pc := 1, dup := checkIdempotency store messageId })
  | 1 =>
    if r.dup then (store, { r with pc := 2 })
    else (setIdempotency store messageId, { r with pc := 2 })
  | _ => (store, r)

/-- Two replicas A and B claiming the same `messageId`, interleaved by
`schedule` (`true` = A takes the next atomic step, `false` = B). -/
def runIdemScheduleAux (messageId : String) (schedule : List Bool)
    (store : List String) (a b : ReplicaState) :
    List String × ReplicaState × ReplicaState :=
  match schedule with
  | [] => (store, a, b)
  | s :: rest =>
    if s then
      let (store', a') := stepReplica store messageId a
      runIdemScheduleAux messageId rest store' a' b
    else
      let (store', b') := stepReplica store messageId b
      runIdemScheduleAux messageId rest store' a b'

/-- See `runIdemScheduleAux`: both replicas start before their `GET`, the
store starts empty. -/
def runIdemSchedule (messageId : String) (schedule : List Bool) :
    List String × ReplicaState × ReplicaState :=
  runIdemScheduleAux messageId schedule [] { pc := 0, dup := false }
    { pc := 0, dup := false }

/-- A replica that finished its guard with `dup = false` proceeds to process
the event. -/
def replicaProcessed (r : ReplicaState) : Bool :=
  r.pc = 2 && !r.dup

/-! ## Outbound splitting (`MessageHandler.splitMessage`) -/

/-- The break-point search of `splitMessage`: backward from `maxLength` for
a paragraph break, line break, `". "`, then `" "`, each accepted only at or
past `maxLength / 2` except the final space search (any hit accepted);
hard cutoff `maxLength` when all fail. -/
def findBreakPoint (remaining : List Char) (maxLength : Nat) : Nat :=
  let half := maxLength / 2
  let keep : Option Nat → Bool := fun bp =>
    match bp with
    | some j => decide (half ≤ j)
    | none => false
  let bp0 := lastIndexOfFrom remaining ['\n', '\n'] maxLength
  let bp1 := if keep bp0 then bp0 else lastIndexOfFrom remaining ['\n'] maxLength
  let bp2 := if keep bp1 then bp1 else lastIndexOfFrom remaining ['.', ' '] maxLength
  let bp3 := if keep bp2 then bp2 else lastIndexOfFrom remaining [' '] maxLength
  bp3.getD maxLength

/-- The `while` loop of `splitMessage`, with fuel for termination (the fuel
is at least the remaining length plus one at every call, so it never runs
out: each iteration consumes at least `breakPoint + 1 ≥ 1` characters). -/
def splitMessageAux (maxLength : Nat) : Nat → List Char → List (List Char)
  | 0, _ => []
  | fuel + 1, remaining =>
    if remaining = [] then []
    else if remaining.length ≤ maxLength then [remaining]
    else
      let bp := findBreakPoint remaining maxLength
      jsTrim (remaining.take (bp + 1)) ::
        splitMessageAux maxLength fuel (jsTrim (remaining.drop (bp + 1)))

/-- `MessageHandler.splitMessage(text, maxLength)`. -/
def splitMessage (text : List Char) (maxLength : Nat) : List (List Char) :=
  if text.length ≤ maxLength then [text]
  else splitMessageAux maxLength (text.length + 1) text

/-- `WsInterleave text segs`: `text` is exactly the segments of `segs`, in
order, interleaved with (possibly empty) whitespace-only gaps — what is left
of the original after `splitMessage` trims whitespace at the break points. -/
inductive WsInterleave : List Char → List (List Char) → Prop
  | nil (w : List Char) (hw : ∀ c ∈ w, isJsWhitespace c = true) :
      WsInterleave w []
  | cons (w s t : List Char) (segs : List (List Char))
      (hw : ∀ c ∈ w, isJsWhitespace c = true)
      (ht : WsInterleave t segs) :
      WsInterleave (w ++ (s ++ t)) (s :: segs)

end HereV2

namespace HereV2

/-! ## Theorems -/

section RiskMerge

/-- C1: for every inbound message, the risk level `detectCrisis` returns is
the maximum, under low < medium < high < critical, of the deterministic
keyword-layer floor and the external LLM level; when the external layer
fails, throws or returns unusable output (`llm = none`), the result is the
deterministic-only floor. -/
theorem detectCrisis_merge_is_max :
    (∀ (message : String) (a : Assessment), validLevel a.level →
        (detectCrisis message (some a)).riskLevel
          = maxLevel (deterministicFloor message) a.level) ∧
    (∀ message : String,
        (detectCrisis message none).riskLevel = deterministicFloor message) := by
  constructor
  · intro m a hv
    rcases hv with h | h | h | h <;>
      cases hk : containsCrisisKeyword m <;>
        simp [detectCrisis, deterministicFloor, maxLevel, riskOrderLookup, hk, h]
  · intro m
    cases hk : containsCrisisKeyword m <;>
      simp [detectCrisis, deterministicFloor, hk]

/-- Witness for C1 at a concrete keyword-matching message and a concrete
`critical` external assessment. -/
theorem detectCrisis_merge_is_max_witness :
    (detectCrisis "I want to kill myself"
        (some { level := "critical", followUpHours := some 2 })).riskLevel
      = maxLevel (deterministicFloor "I want to kill myself") "critical" :=
  detectCrisis_merge_is_max.1 "I want to kill myself"
    { level := "critical", followUpHours := some 2 } (Or.inr (Or.inr (Or.inr rfl)))

/-- C4: the deterministic keyword layer matches "I want to kill myself"
(floor `high`, crisis response attached) and does not match
"I killed it at work today" (which, with the external layer low or failed,
reaches the normal reply path: the only sent text is the generated reply). -/
theorem crisis_keyword_examples :
    containsCrisisKeyword "I want to kill myself" = true ∧
    (detectCrisis "I want to kill myself" none).riskLevel = "high" ∧
    (detectCrisis "I want to kill myself" none).crisisResponse.isSome = true ∧
    containsCrisisKeyword "I killed it at work today" = false ∧
    (detectCrisis "I killed it at work today" none).isCrisis = false ∧
    (detectCrisis "I killed it at work today"
        (some { level := "low", followUpHours := none })).isCrisis = false ∧
    (handleMessage (some { onboardingStage := 4, name := "Sam", messageCount := 12 })
        "I killed it at work today"
        { llm := some { level := "low", followUpHours := none },
          genReply := "Nice, congrats!", journalAck := "", nameAck := "",
          refreshedUser := { onboardingStage := 4, name := "Sam", messageCount := 12 } }).sent
      = ["Nice, congrats!"] :=
  ⟨by decide, by decide, by rfl, by decide, by decide, by decide, by decide⟩

end RiskMerge

section Onboarding

/-- The `switch` of `processOnboarding` performs no stage write or exactly
one, to the entry stage's successor. -/
theorem onboardingSwitch_stageWrites (u : UserState) (m na : String) :
    (onboardingSwitch u m na).stageWrites = [] ∨
    (onboardingSwitch u m na).stageWrites = [u.onboardingStage + 1] := by
  by_cases h0 : u.onboardingStage = 0
  · simp only [onboardingSwitch, h0, if_true, reduceIte]
    split_ifs <;> simp_all [noOnboardingOutcome]
  · by_cases h1 : u.onboardingStage = 1
    · simp only [onboardingSwitch, h0, h1, if_false, if_true, reduceIte]
      split_ifs <;> simp_all [noOnboardingOutcome]
    · by_cases h2 : u.onboardingStage = 2
      · simp only [onboardingSwitch, h0, h1, h2, if_false, if_true, reduceIte]
        split_ifs <;> simp_all [noOnboardingOutcome]
      · by_cases h3 : u.onboardingStage = 3
        · simp only [onboardingSwitch, h0, h1, h2, h3, if_false, if_true, reduceIte]
          split_ifs <;> simp_all [noOnboardingOutcome]
        · simp [onboardingSwitch, h0, h1, h2, h3, noOnboardingOutcome]

/-- One `processOnboarding` call's stage writes: none, one write of the
successor stage, or (only from `ASK_CHECKIN`) one or two writes of
`COMPLETE`. -/
theorem processOnboarding_stageWrites_cases (u : UserState) (m na : String) :
    (processOnboarding u m na).stageWrites = [] ∨
    (processOnboarding u m na).stageWrites = [u.onboardingStage + 1] ∨
    (u.onboardingStage = 3 ∧
      ((processOnboarding u m na).stageWrites = [4] ∨
       (processOnboarding u m na).stageWrites = [4, 4])) := by
  by_cases hc : u.onboardingStage = 3 ∧ isCheckInResponse m
  · rcases onboardingSwitch_stageWrites u m na with h | h
    · exact Or.inr (Or.inr ⟨hc.1, Or.inl (by simp [processOnboarding, hc, h])⟩)
    · refine Or.inr (Or.inr ⟨hc.1, Or.inr ?_⟩)
      simp [processOnboarding, hc, h, hc.1]
  · rcases onboardingSwitch_stageWrites u m na with h | h
    · exact Or.inl (by simp [processOnboarding, hc, h])
    · exact Or.inr (Or.inl (by simp [processOnboarding, hc, h]))

/-- C5: the onboarding stage is monotonically non-decreasing: no
`processOnboarding` call stores a stage below the entry stage, the stored
stage after one event is at least the entry stage, and over any event
sequence the stage never regresses. -/
theorem onboarding_stage_monotone :
    (∀ (user : UserState) (message nameAck : String),
        ∀ w ∈ (processOnboarding user message nameAck).stageWrites,
          user.onboardingStage ≤ w) ∧
    (∀ (user : UserState) (message : String),
        user.onboardingStage ≤ stageAfterOnboarding user message) ∧
    (∀ u v : UserState, Relation.ReflTransGen OnboardingStep u v →
        u.onboardingStage ≤ v.onboardingStage) := by
  have hstep : ∀ (user : UserState) (message nameAck : String),
      ∀ w ∈ (processOnboarding user message nameAck).stageWrites,
        user.onboardingStage ≤ w := by
    intro u m na w hw
    rcases processOnboarding_stageWrites_cases u m na with h | h | ⟨h3, h | h⟩ <;>
      rw [h] at hw <;> simp at hw <;> omega
  have hafter : ∀ (user : UserState) (message : String),
      user.onboardingStage ≤ stageAfterOnboarding user message := by
    intro u m
    unfold stageAfterOnboarding
    rcases processOnboarding_stageWrites_cases u m "" with h | h | ⟨h3, h | h⟩ <;>
      rw [h] <;> simp <;> omega
  refine ⟨hstep, hafter, ?_⟩
  intro u v h
  induction h with
  | refl => exact le_refl _
  | tail _ hbc ih =>
    obtain ⟨msg, hmsg⟩ := hbc
    exact le_trans ih (hmsg ▸ hafter _ msg)

/-- Witness for C5: one concrete event advancing INITIAL to ASK_NAME. -/
theorem onboarding_stage_monotone_witness :
    ({ onboardingStage := 0, name := "", messageCount := 2 } : UserState).onboardingStage ≤
    ({ onboardingStage := 1, name := "", messageCount := 3 } : UserState).onboardingStage :=
  onboarding_stage_monotone.2.2 _ _
    (Relation.ReflTransGen.single ⟨"hello", by decide⟩)

/-- C6 counterexample: an event in stage ASK_CHECKIN with `messageCount ≥ 10`
and a check-in-preference message triggers both the message-count-threshold
advancement and the preference advancement — two stage writes, not at most
one. -/
theorem onboarding_double_advance_counterexample :
    (processOnboarding { onboardingStage := 3, name := "Sam", messageCount := 10 }
        "yes" "").stageWrites = [4, 4] ∧
    1 < (processOnboarding { onboardingStage := 3, name := "Sam", messageCount := 10 }
        "yes" "").stageWrites.length :=
  ⟨by decide, by decide⟩

/-- C6 amended: per inbound event the stored stage takes at most one new
value — every stage write of one `processOnboarding` call targets the same
stage, and at most two writes (both `COMPLETE`, from ASK_CHECKIN) occur. -/
theorem onboarding_single_target_stage :
    ∀ (user : UserState) (message nameAck : String),
      (∀ w₁ ∈ (processOnboarding user message nameAck).stageWrites,
       ∀ w₂ ∈ (processOnboarding user message nameAck).stageWrites, w₁ = w₂) ∧
      (processOnboarding user message nameAck).stageWrites.length ≤ 2 := by
  intro u m na
  rcases processOnboarding_stageWrites_cases u m na with h | h | ⟨h3, h | h⟩ <;>
    rw [h] <;> exact ⟨by simp, by simp⟩

/-- Witness for C6's amended theorem at the double-write input. -/
theorem onboarding_single_target_stage_witness :
    (4 ∈ (processOnboarding { onboardingStage := 3, name := "Sam", messageCount := 10 }
        "yes" "").stageWrites) ∧ (4 : Nat) = 4 :=
  ⟨by decide,
   (onboarding_single_target_stage
      { onboardingStage := 3, name := "Sam", messageCount := 10 } "yes" "").1
     4 (by decide) 4 (by decide)⟩

/-- C10 counterexample: the empty message contains neither a positive nor a
negative phrase, yet `parseCheckInPreference` returns `false` (the falsy
guard), not the opt-in default. -/
theorem parseCheckInPreference_empty_defaults_false :
    parseCheckInPreference "" = false := by decide

/-- C10 amended: positive phrases take precedence over negative ones (any
message containing a positive phrase opts in, negatives notwithstanding),
and a nonempty message containing neither kind of phrase also opts in; only
the empty message returns `false`. -/
theorem parseCheckInPreference_positive_precedence :
    (∀ message : String, message ≠ "" →
        (∃ w ∈ positiveWords, jsIncludes (toLowerCase message.data) w.data = true) →
        parseCheckInPreference message = true) ∧
    (∀ message : String, message ≠ "" →
        (∀ w ∈ positiveWords, jsIncludes (toLowerCase message.data) w.data = false) →
        (∀ w ∈ negativeWords, jsIncludes (toLowerCase message.data) w.data = false) →
        parseCheckInPreference message = true) := by
  constructor
  · intro m hm hpos
    have hany : (positiveWords.any fun w => jsIncludes (toLowerCase m.data) w.data) = true := by
      rw [List.any_eq_true]
      obtain ⟨w, hw, h⟩ := hpos
      exact ⟨w, hw, h⟩
    simp [parseCheckInPreference, hm, hany]
  · intro m hm hpos hneg
    have h1 : (positiveWords.any fun w => jsIncludes (toLowerCase m.data) w.data) = false := by
      rw [List.any_eq_false]
      intro x hx
      simp [hpos x hx]
    have h2 : (negativeWords.any fun w => jsIncludes (toLowerCase m.data) w.data) = false := by
      rw [List.any_eq_false]
      intro x hx
      simp [hneg x hx]
    simp [parseCheckInPreference, hm, h1, h2]

/-- Witness for C10's amended theorem: a message containing both "okay" and
"no" opts in (positive precedence). -/
theorem parseCheckInPreference_positive_precedence_witness :
    parseCheckInPreference "no, okay fine" = true :=
  parseCheckInPreference_positive_precedence.1 "no, okay fine" (by decide)
    ⟨"okay", by decide, by decide⟩

end Onboarding

section Idempotency

/-- C2: the route's idempotency guard is a separate `GET`
(`checkIdempotency`) followed by a separate `SET` (`setIdempotency`), not
one atomic conditional-set.  Run in isolation the second claim of an id is
rejected as a duplicate (first two conjuncts), but under the interleaving
A-check, B-check, A-set, B-set of two replicas both claims succeed and the
event is processed twice — the claimed exactly-once property fails. -/
theorem idempotency_guard_check_then_set_race :
    claimEvent [] "evt-1" = (false, ["evt-1"]) ∧
    claimEvent ["evt-1"] "evt-1" = (true, ["evt-1"]) ∧
    replicaProcessed (runIdemSchedule "evt-1" [true, false, true, false]).2.1 = true ∧
    replicaProcessed (runIdemSchedule "evt-1" [true, false, true, false]).2.2 = true :=
  ⟨by decide, by decide, by decide, by decide⟩

end Idempotency

section Pipeline

/-- `detectCrisis` reports a crisis exactly when its final level is not
`low`. -/
theorem detectCrisis_isCrisis_spec (m : String) (llm : Option Assessment) :
    (detectCrisis m llm).isCrisis
      = decide ((detectCrisis m llm).riskLevel ≠ "low") := by
  unfold detectCrisis
  cases llm with
  | none => cases hk : containsCrisisKeyword m <;> simp [hk]
  | some a =>
    cases hk : containsCrisisKeyword m <;> simp [hk] <;> split <;>
      by_cases ha : a.level = "low" <;> simp [ha] <;>
        simp only [← decide_not, decide_eq_decide] <;> omega

/-- A `critical` result is always flagged as a crisis. -/
theorem detectCrisis_critical_isCrisis (m : String) (llm : Option Assessment)
    (h : (detectCrisis m llm).riskLevel = "critical") :
    (detectCrisis m llm).isCrisis = true := by
  rw [detectCrisis_isCrisis_spec, h]
  decide

/-- C3: when risk assessment runs (non-command, non-journal, established
user) and yields `critical`, the handler returns only the crisis response:
no LLM reply is generated and no onboarding step runs. -/
theorem critical_short_circuits :
    ∀ (user0 : Option UserState) (message : String) (o : Oracles),
      message ≠ "" →
      handleCommands message = none →
      isJournalEntry message = false →
      (user0.getD freshUser).messageCount ≠ 0 →
      (detectCrisis message o.llm).riskLevel = "critical" →
      (handleMessage user0 message o).sent
          = [(detectCrisis message o.llm).crisisResponse.getD ""] ∧
      (handleMessage user0 message o).llmReplyRequested = false ∧
      (handleMessage user0 message o).onboardingRan = false := by
  intro u0 m o hne hcmd hj hmc hcrit
  have hic := detectCrisis_critical_isCrisis m o.llm hcrit
  unfold handleMessage
  rw [if_neg hne, hcmd]
  simp only [hj, Bool.false_eq_true, if_false]
  rw [if_neg hmc, if_pos ⟨hic, hcrit⟩]
  exact ⟨rfl, rfl, rfl⟩

/-- Witness for C3 at a concrete critical assessment. -/
theorem critical_short_circuits_witness :
    (handleMessage (some { onboardingStage := 4, name := "Sam", messageCount := 7 })
        "I want to end it all"
        { llm := some { level := "critical", followUpHours := some 2 },
          genReply := "generated", journalAck := "", nameAck := "",
          refreshedUser := { onboardingStage := 4, name := "Sam", messageCount := 7 } }).sent
      = [(detectCrisis "I want to end it all"
            (some { level := "critical", followUpHours := some 2 })).crisisResponse.getD ""] :=
  (critical_short_circuits _ "I want to end it all" _
    (by decide) (by decide) (by decide) (by decide) (by decide)).1

/-- A journal-classified message begins, after normalization, with `j`. -/
theorem isJournalEntry_head (m : String) (h : isJournalEntry m = true) :
    ∃ t, jsTrim (toLowerCase m.data) = 'j' :: t := by
  unfold isJournalEntry at h
  by_cases hm : m = ""
  · rw [if_pos hm] at h
    exact absurd h (by simp)
  · rw [if_neg hm, List.any_eq_true] at h
    obtain ⟨p, hp, hpre⟩ := h
    unfold jsStartsWith at hpre
    rw [List.isPrefixOf_iff_prefix] at hpre
    obtain ⟨t, ht⟩ := hpre
    simp only [journalingPrefixList, List.mem_cons, List.mem_singleton] at hp
    rcases hp with hp | hp | hp
    · subst hp
      exact ⟨'o' :: 'u' :: 'r' :: 'n' :: 'a' :: 'l' :: ':' :: t, by rw [← ht]; rfl⟩
    · subst hp
      exact ⟨':' :: t, by rw [← ht]; rfl⟩
    · exact absurd hp (by simp)

/-- No built-in command begins with `j`, so a journal entry is never taken
for a command. -/
theorem journal_not_command (m : String) (h : isJournalEntry m = true) :
    handleCommands m = none := by
  obtain ⟨t, ht⟩ := isJournalEntry_head m h
  unfold handleCommands
  rw [ht]
  rfl

/-- C9: a journal-classified message short-circuits the pipeline: the only
reply is the journal acknowledgment, the only store effects are the entry
save (with the prefix stripped) and the journal-count increment — no risk
assessment, no onboarding, no crisis-log or stage write — and the concrete
example stores exactly the prefix-stripped content. -/
theorem journal_entries_short_circuit :
    (∀ (user0 : Option UserState) (message : String) (o : Oracles),
        isJournalEntry message = true →
        (handleMessage user0 message o).sent = [o.journalAck] ∧
        (handleMessage user0 message o).effects
            = [Effect.journalSave (extractJournalContent message),
               Effect.journalCountIncrement] ∧
        (handleMessage user0 message o).crisisDetectionRan = false ∧
        (handleMessage user0 message o).onboardingRan = false ∧
        (handleMessage user0 message o).llmReplyRequested = false) ∧
    extractJournalContent "j: I feel grateful today" = "I feel grateful today" := by
  constructor
  · intro u0 m o hj
    have hne : m ≠ "" := by
      intro he
      rw [he] at hj
      exact absurd hj (by decide)
    have hcmd := journal_not_command m hj
    unfold handleMessage
    rw [if_neg hne, hcmd]
    simp [hj]
  · decide

/-- Witness for C9 at the spec's example entry. -/
theorem journal_entries_short_circuit_witness :
    (handleMessage (some { onboardingStage := 2, name := "", messageCount := 4 })
        "j: I feel grateful today"
        { llm := none, genReply := "", journalAck := "Saved!", nameAck := "",
          refreshedUser := { onboardingStage := 2, name := "", messageCount := 4 } }).sent
      = ["Saved!"] :=
  (journal_entries_short_circuit.1 _ "j: I feel grateful today" _ (by decide)).1

end Pipeline

section Scheduler

/-- C7: a due check-in (`nextCheckIn ≤ now`) is rolled over to 09:00 of the
day after the rollover instant `tNow ≥ now`, a value strictly greater than
both the prior `nextCheckIn` and `now`; it is never left equal to its prior
value and the same due instant cannot fire again. -/
theorem checkin_rollover_strictly_advances :
    ∀ (sched : ScheduleRecord) (now tNow c : Nat),
      sched.nextCheckIn = some c → c ≠ 0 → c ≤ now → now ≤ tNow →
      (processUserSchedule sched now tNow).nextCheckIn
          = some (getNextCheckInTime tNow) ∧
      c < getNextCheckInTime tNow ∧ now < getNextCheckInTime tNow := by
  intro sched now tNow c hc h0 hle hnt
  have hgt : tNow < getNextCheckInTime tNow := by
    unfold getNextCheckInTime dayMs hourMs
    omega
  refine ⟨?_, by omega, by omega⟩
  unfold processUserSchedule
  simp only [hc]
  rw [if_pos ⟨h0, hle⟩]
  cases hj : sched.nextJournalPrompt
  · simp [hj]
  · simp only [hj]
    split_ifs <;> simp

/-- Witness for C7 at a concrete due schedule. -/
theorem checkin_rollover_strictly_advances_witness :
    (processUserSchedule
        { nextCheckIn := some 5, nextJournalPrompt := none, followUps := [] }
        5 7).nextCheckIn = some (getNextCheckInTime 7) ∧
    5 < getNextCheckInTime 7 ∧ 5 < getNextCheckInTime 7 :=
  checkin_rollover_strictly_advances _ 5 7 5 rfl (by decide) (by decide) (by decide)

end Scheduler

end HereV2

namespace HereV2

section Splitting

/-- The backward search never returns an index past its start position. -/
theorem lastIndexOfFromAux_le (s pat : List Char) :
    ∀ (i j : Nat), lastIndexOfFromAux s pat i = some j → j ≤ i := by
  intro i
  induction i with
  | zero =>
    intro j h
    unfold lastIndexOfFromAux at h
    split at h <;> simp_all
  | succ k ih =>
    intro j h
    unfold lastIndexOfFromAux at h
    split at h
    · simp at h
      omega
    · exact le_trans (ih j h) (by omega)

/-- Every chosen break point, the hard cutoff included, is at most
`maxLength`. -/
theorem findBreakPoint_le (r : List Char) (maxLength : Nat) :
    findBreakPoint r maxLength ≤ maxLength := by
  have k : ∀ pat j, lastIndexOfFromAux r pat maxLength = some j → j ≤ maxLength :=
    fun pat j h => lastIndexOfFromAux_le r pat maxLength j h
  unfold findBreakPoint lastIndexOfFrom
  rcases h0 : lastIndexOfFromAux r ['\n', '\n'] maxLength with _ | j0 <;>
  rcases h1 : lastIndexOfFromAux r ['\n'] maxLength with _ | j1 <;>
  rcases h2 : lastIndexOfFromAux r ['.', ' '] maxLength with _ | j2 <;>
  rcases h3 : lastIndexOfFromAux r [' '] maxLength with _ | j3 <;>
  simp only [h0, h1, h2, h3] <;> split_ifs <;>
  simp only [Option.getD_some, Option.getD_none] <;>
  first
    | omega
    | exact k _ _ h0
    | exact k _ _ h1
    | exact k _ _ h2
    | exact k _ _ h3

/-- `trimLeft` only removes a whitespace prefix. -/
theorem trimLeft_decomp (s : List Char) :
    ∃ a, (∀ c ∈ a, isJsWhitespace c = true) ∧ s = a ++ trimLeft s :=
  ⟨s.takeWhile isJsWhitespace,
   fun _ hc => List.mem_takeWhile_imp hc,
   (List.takeWhile_append_dropWhile _ _).symm⟩

/-- `trimRight` only removes a whitespace suffix. -/
theorem trimRight_decomp (s : List Char) :
    ∃ b, (∀ c ∈ b, isJsWhitespace c = true) ∧ s = trimRight s ++ b := by
  refine ⟨(s.reverse.takeWhile isJsWhitespace).reverse, ?_, ?_⟩
  · intro c hc
    rw [List.mem_reverse] at hc
    exact List.mem_takeWhile_imp hc
  · calc s = s.reverse.reverse := (List.reverse_reverse s).symm
    _ = (s.reverse.takeWhile isJsWhitespace ++ s.reverse.dropWhile isJsWhitespace).reverse := by
        rw [List.takeWhile_append_dropWhile]
    _ = (s.reverse.dropWhile isJsWhitespace).reverse
          ++ (s.reverse.takeWhile isJsWhitespace).reverse := by
        rw [List.reverse_append]
    _ = trimRight s ++ (s.reverse.takeWhile isJsWhitespace).reverse := rfl

/-- `jsTrim` only removes whitespace at the two ends. -/
theorem jsTrim_decomp (s : List Char) :
    ∃ a b, (∀ c ∈ a, isJsWhitespace c = true) ∧ (∀ c ∈ b, isJsWhitespace c = true) ∧
      s = a ++ (jsTrim s ++ b) := by
  obtain ⟨a, ha, hs⟩ := trimLeft_decomp s
  obtain ⟨b, hb, ht⟩ := trimRight_decomp (trimLeft s)
  refine ⟨a, b, ha, hb, ?_⟩
  calc s = a ++ trimLeft s := hs
  _ = a ++ (trimRight (trimLeft s) ++ b) := by rw [← ht]
  _ = a ++ (jsTrim s ++ b) := rfl

/-- Trimming never lengthens a string. -/
theorem jsTrim_length_le (s : List Char) : (jsTrim s).length ≤ s.length := by
  obtain ⟨a, b, _, _, hs⟩ := jsTrim_decomp s
  have := congrArg List.length hs
  simp [List.length_append] at this
  omega

/-- Every segment the splitting loop emits has at most `maxLength + 1`
characters (the cut takes `breakPoint + 1 ≤ maxLength + 1` characters). -/
theorem splitMessageAux_length_le (maxLength : Nat) :
    ∀ (fuel : Nat) (r s : List Char), s ∈ splitMessageAux maxLength fuel r →
      s.length ≤ maxLength + 1 := by
  intro fuel
  induction fuel with
  | zero =>
    intro r s h
    simp [splitMessageAux] at h
  | succ k ih =>
    intro r s h
    unfold splitMessageAux at h
    split at h
    · simp at h
    · split at h
      · rename_i hlen
        simp at h
        subst h
        omega
      · simp only [List.mem_cons] at h
        rcases h with h | h
        · subst h
          have h1 : (r.take (findBreakPoint r maxLength + 1)).length ≤ maxLength + 1 := by
            rw [List.length_take]
            have := findBreakPoint_le r maxLength
            omega
          exact le_trans (jsTrim_length_le _) h1
        · exact ih _ _ h

/-- Whitespace may be prepended to an interleaving. -/
theorem wsInterleave_ws_left {t : List Char} {segs : List (List Char)} (u : List Char)
    (hu : ∀ c ∈ u, isJsWhitespace c = true) (h : WsInterleave t segs) :
    WsInterleave (u ++ t) segs := by
  induction h with
  | nil w hw =>
    refine WsInterleave.nil (u ++ w) ?_
    intro c hc
    rcases List.mem_append.mp hc with h | h
    exacts [hu c h, hw c h]
  | cons w s t' segs hw ht ih =>
    rw [← List.append_assoc]
    refine WsInterleave.cons (u ++ w) s t' segs ?_ ht
    intro c hc
    rcases List.mem_append.mp hc with h | h
    exacts [hu c h, hw c h]

/-- Whitespace may be appended to an interleaving. -/
theorem wsInterleave_ws_right {t : List Char} {segs : List (List Char)}
    (h : WsInterleave t segs) (u : List Char)
    (hu : ∀ c ∈ u, isJsWhitespace c = true) :
    WsInterleave (t ++ u) segs := by
  induction h with
  | nil w hw =>
    refine WsInterleave.nil (w ++ u) ?_
    intro c hc
    rcases List.mem_append.mp hc with h | h
    exacts [hw c h, hu c h]
  | cons w s t' segs hw ht ih =>
    have he : (w ++ (s ++ t')) ++ u = w ++ (s ++ (t' ++ u)) := by
      simp [List.append_assoc]
    rw [he]
    exact WsInterleave.cons w s (t' ++ u) segs hw ih

/-- The splitting loop reconstructs its input up to the whitespace trimmed
at break points. -/
theorem splitMessageAux_interleave (maxLength : Nat) :
    ∀ (fuel : Nat) (r : List Char), r.length < fuel →
      WsInterleave r (splitMessageAux maxLength fuel r) := by
  intro fuel
  induction fuel with
  | zero =>
    intro r h
    omega
  | succ k ih =>
    intro r hr
    unfold splitMessageAux
    split
    · rename_i he
      subst he
      exact WsInterleave.nil [] (by simp)
    · split
      · rename_i hne hlen
        simpa using WsInterleave.cons [] r [] [] (by simp) (WsInterleave.nil [] (by simp))
      · rename_i hne hlen
        obtain ⟨a, b, ha, hb, hta⟩ := jsTrim_decomp (r.take (findBreakPoint r maxLength + 1))
        obtain ⟨c, d, hc, hd, htc⟩ := jsTrim_decomp (r.drop (findBreakPoint r maxLength + 1))
        have hr' : (jsTrim (r.drop (findBreakPoint r maxLength + 1))).length < k := by
          have h1 := jsTrim_length_le (r.drop (findBreakPoint r maxLength + 1))
          rw [List.length_drop] at h1
          omega
        have hIH := ih (jsTrim (r.drop (findBreakPoint r maxLength + 1))) hr'
        have w1 := wsInterleave_ws_right hIH d hd
        have w2 := wsInterleave_ws_left c hc w1
        have w3 := wsInterleave_ws_left b hb w2
        have final := WsInterleave.cons a
          (jsTrim (r.take (findBreakPoint r maxLength + 1)))
          (b ++ (c ++ (jsTrim (r.drop (findBreakPoint r maxLength + 1)) ++ d)))
          (splitMessageAux maxLength k (jsTrim (r.drop (findBreakPoint r maxLength + 1))))
          ha w3
        have hr_eq : r = a ++ (jsTrim (r.take (findBreakPoint r maxLength + 1)) ++
            (b ++ (c ++ (jsTrim (r.drop (findBreakPoint r maxLength + 1)) ++ d)))) := by
          conv_lhs => rw [← List.take_append_drop (findBreakPoint r maxLength + 1) r, hta, htc]
          simp [List.append_assoc]
        nth_rewrite 1 [hr_eq]
        exact final

/-- C8 amended: at the configured maximum of 1600, the segments of
`splitMessage` reconstruct the original text up to the whitespace trimmed at
break points, and no segment exceeds 1601 characters (the hard cutoff and an
exact-boundary sentence or space break take `breakPoint + 1` characters, one
more than the configured maximum). -/
theorem splitMessage_reconstruction_and_bound :
    ∀ text : List Char,
      WsInterleave text (splitMessage text 1600) ∧
      ∀ s ∈ splitMessage text 1600, s.length ≤ 1601 := by
  intro text
  constructor
  · unfold splitMessage
    split
    · simpa using WsInterleave.cons [] text [] [] (by simp) (WsInterleave.nil [] (by simp))
    · exact splitMessageAux_interleave 1600 (text.length + 1) text (by omega)
  · intro s hs
    unfold splitMessage at hs
    split at hs
    · rename_i h
      simp at hs
      subst hs
      omega
    · exact splitMessageAux_length_le 1600 (text.length + 1) text s hs

/-- A pattern starting with anything but `a` never matches inside a run of
`a`s. -/
theorem isPrefixOf_replicate_of_ne (c : Char) (cs : List Char) (n : Nat) (h : c ≠ 'a') :
    ((c :: cs).isPrefixOf (List.replicate n 'a')) = false := by
  cases n with
  | zero => rfl
  | succ k =>
    rw [List.replicate_succ]
    show (c == 'a' && cs.isPrefixOf (List.replicate k 'a')) = false
    rw [beq_eq_false_iff_ne.mpr h]
    rfl

/-- The backward search finds no such pattern in a run of `a`s. -/
theorem lastIndexOfFromAux_replicate (c : Char) (cs : List Char) (n : Nat) (h : c ≠ 'a') :
    ∀ i, lastIndexOfFromAux (List.replicate n 'a') (c :: cs) i = none := by
  intro i
  induction i with
  | zero =>
    unfold lastIndexOfFromAux
    rw [isPrefixOf_replicate_of_ne c cs n h]
    rfl
  | succ k ih =>
    unfold lastIndexOfFromAux
    rw [List.drop_replicate, isPrefixOf_replicate_of_ne c cs _ h]
    simpa using ih

/-- Runs of `a`s contain no leading whitespace. -/
theorem dropWhile_ws_replicate_a (m : Nat) :
    (List.replicate m 'a').dropWhile isJsWhitespace = List.replicate m 'a' := by
  cases m with
  | zero => rfl
  | succ k =>
    rw [List.replicate_succ, List.dropWhile_cons]
    rw [show isJsWhitespace 'a' = false from rfl]
    simp

/-- Runs of `a`s are unchanged by trimming. -/
theorem jsTrim_replicate_a (n : Nat) :
    jsTrim (List.replicate n 'a') = List.replicate n 'a' := by
  unfold jsTrim trimLeft trimRight
  rw [dropWhile_ws_replicate_a, List.reverse_replicate, dropWhile_ws_replicate_a,
      List.reverse_replicate]

/-- On a run of `a`s every search fails and the hard cutoff is taken. -/
theorem findBreakPoint_replicate_a (maxLength : Nat) :
    findBreakPoint (List.replicate (maxLength + 1) 'a') maxLength = maxLength := by
  unfold findBreakPoint lastIndexOfFrom
  rw [lastIndexOfFromAux_replicate '\n' ['\n'] _ (by decide),
      lastIndexOfFromAux_replicate '\n' [] _ (by decide),
      lastIndexOfFromAux_replicate '.' [' '] _ (by decide),
      lastIndexOfFromAux_replicate ' ' [] _ (by decide)]
  rfl

/-- A run of `maxLength + 1` non-whitespace characters is emitted whole as a
single over-long segment: the hard cutoff takes `maxLength + 1` characters. -/
theorem splitMessage_replicate_succ (maxLength : Nat) :
    splitMessage (List.replicate (maxLength + 1) 'a') maxLength
      = [List.replicate (maxLength + 1) 'a'] := by
  unfold splitMessage
  rw [if_neg (by simp)]
  have hfuel : (List.replicate (maxLength + 1) 'a').length + 1 = maxLength + 1 + 1 := by simp
  rw [hfuel]
  unfold splitMessageAux
  rw [if_neg (by simp), if_neg (by simp)]
  rw [findBreakPoint_replicate_a]
  show jsTrim (List.take (maxLength + 1) (List.replicate (maxLength + 1) 'a')) ::
      splitMessageAux maxLength (maxLength + 1)
        (jsTrim (List.drop (maxLength + 1) (List.replicate (maxLength + 1) 'a')))
    = [List.replicate (maxLength + 1) 'a']
  rw [List.take_of_length_le (by simp), List.drop_eq_nil_of_le (by simp)]
  rw [jsTrim_replicate_a]
  rw [show jsTrim ([] : List Char) = [] from rfl]
  unfold splitMessageAux
  rw [if_pos rfl]

/-- C8 counterexample: on 1601 letters `a` with the configured maximum 1600,
`splitMessage` returns one segment of 1601 characters — a segment can exceed
the configured maximum. -/
theorem splitMessage_exceeds_max_counterexample :
    splitMessage (List.replicate 1601 'a') 1600 = [List.replicate 1601 'a'] ∧
    1600 < (List.replicate 1601 'a' : List Char).length := by
  constructor
  · show splitMessage (List.replicate (1600 + 1) 'a') 1600 = [List.replicate (1600 + 1) 'a']
    exact splitMessage_replicate_succ 1600
  · rw [List.length_replicate]
    omega

end Splitting

end HereV2
